import Mathlib

/-!
Verification of the tennis-fixtures ingestion pipeline (src/flow.py).

The source is a single-page data-entry application: it fetches fixture
records from an upstream REST API day by day (or accepts an uploaded JSON
envelope), normalizes them into a flat row shape, buffers them in memory,
and writes them into a warehouse table partitioned by (date range, timezone)
via delete-then-insert.

The embedding below mirrors the Python source:
- Upstream JSON values are modelled by `JVal` (string, integer, null) with
  Python truthiness (`truthy`) and Python string coercion (`pyStr`).
- An upstream record is `URecord`: each consumed field is `Option JVal`
  (`none` = key absent from the dict, `some .vnull` = key present with null).
- `normalizeRecord` / `normalize_result` mirror `normalize_result` in
  src/flow.py lines 126-139.
- `fetchLoop` / `do_fetch` mirror the day-by-day range fetch (lines 175-227);
  calendar days are day numbers (`Nat`), and the upstream API is a function
  from day to `DayOutcome` (a raised exception or a parsed envelope).
- `do_save` / `delete_partition_range` / `query_partition` mirror the
  Snowflake save path (lines 284-317) and the scoped query (lines 324-333)
  over an in-memory list of `StoredRow`; the `event_date`-to-date parse
  (`pd.to_datetime`) is passed in as an explicit function argument.
- `upl_action` mirrors the JSON-upload fallback (lines 229-238).
-/

/-- A JSON scalar value as the Python code sees it: a string, an integer,
or `None`/null. -/
inductive JVal where
  | vstr (s : String)
  | vnum (n : Int)
  | vnull
deriving DecidableEq

/-- Python truthiness of a `JVal`: empty string, zero and `None` are falsy. -/
def truthy : JVal → Bool
  | .vstr s => s != ""
  | .vnum n => n != 0
  | .vnull => false

/-- Python `str(...)` coercion of a `JVal`. -/
def pyStr : JVal → String
  | .vstr s => s
  | .vnum n => toString n
  | .vnull => "None"

/-- Python `a or b`: `a` when truthy, otherwise `b`. -/
def pyOr (a b : JVal) : JVal := if truthy a then a else b

/-- `dict.get(k)` with no default: an absent key reads as `None`. -/
def optVal (o : Option JVal) : JVal := o.getD .vnull

/-- Python `str.strip()` with no argument: remove leading and trailing
whitespace. -/
def pyStrip (s : String) : String :=
  String.mk (((s.toList.dropWhile Char.isWhitespace).reverse.dropWhile
    Char.isWhitespace).reverse)

/-- An upstream fixture record restricted to the fields the code consumes.
`none` means the key is absent from the dict; `some v` means the key is
present with value `v` (possibly null). -/
structure URecord where
  event_key : Option JVal := none
  match_key : Option JVal := none
  event_date : Option JVal := none
  event_time : Option JVal := none
  event_first_player : Option JVal := none
  event_second_player : Option JVal := none
  tournament_name : Option JVal := none
  event_type_type : Option JVal := none
  event_status : Option JVal := none
deriving DecidableEq

/-- A normalized row as built by `normalize_result` (src/flow.py 126-139).
`event_key` is always a Python string (the code wraps it in `str(...)`);
every other field is whatever value `dict.get(key, "")` returned, verbatim. -/
structure NRow where
  event_key : String
  event_date : JVal
  event_time : JVal
  first_player : JVal
  second_player : JVal
  tournament_name : JVal
  event_type_type : JVal
  event_status : JVal
deriving DecidableEq

/-- One iteration of the loop body of `normalize_result`:
`str(it.get("event_key") or it.get("match_key") or "")` for the identifier,
and `it.get(field, "")` for the remaining fields. -/
def normalizeRecord (it : URecord) : NRow :=
  { event_key := pyStr (pyOr (pyOr (optVal it.event_key) (optVal it.match_key)) (.vstr ""))
  , event_date := it.event_date.getD (.vstr "")
  , event_time := it.event_time.getD (.vstr "")
  , first_player := it.event_first_player.getD (.vstr "")
  , second_player := it.event_second_player.getD (.vstr "")
  , tournament_name := it.tournament_name.getD (.vstr "")
  , event_type_type := it.event_type_type.getD (.vstr "")
  , event_status := it.event_status.getD (.vstr "") }

/-- `normalize_result(result_list)` (src/flow.py 126-139): `result_list` may
be absent/None (`for it in (result_list or [])`), and each record is mapped
through the loop body. -/
def normalize_result (result_list : Option (List URecord)) : List NRow :=
  (result_list.getD []).map normalizeRecord

/-- The parsed JSON envelope the upstream API (or an uploaded file) yields:
`success`, `message` and `result` are dict lookups and may each be absent. -/
structure Envelope where
  success : Option JVal := none
  message : Option JVal := none
  result : Option (List URecord) := none
deriving DecidableEq

/-- Outcome of `fetch_api_day` for one day, as seen by the caller's
`try/except`: either a raised exception (connection failure, timeout,
non-2xx via `raise_for_status`) with its message, or a parsed envelope. -/
inductive DayOutcome where
  | netError (msg : String)
  | ok (env : Envelope)
deriving DecidableEq

/-- The message recorded when an envelope has `success != 1`
(src/flow.py 193): the envelope's `message` field when present, else the
payload itself (abbreviated here). -/
def errMsg (env : Envelope) : String :=
  "success != 1 (" ++ (match env.message with
    | some j => pyStr j
    | none => "payload") ++ ")"

/-- The day-by-day loop of the range fetch (src/flow.py 187-201), starting
at day `day` and running for the given number of days. Returns the list of
accumulated non-empty per-day frames (`dfs`) and the per-day error entries
(`errores`), each entry carrying the day it was recorded for. A day whose
call raises is recorded as an error; a day whose envelope has
`success != 1` is recorded as an error; a successful day's records are
normalized and appended only when non-empty. No failure aborts the loop. -/
def fetchLoop (api : Nat → DayOutcome) : Nat → Nat → List (List NRow) × List (Nat × String)
  | _, 0 => ([], [])
  | day, n + 1 =>
    let rest := fetchLoop api (day + 1) n
    match api day with
    | .netError m => (rest.1, (day, m) :: rest.2)
    | .ok env =>
      if env.success ≠ some (.vnum 1) then
        (rest.1, (day, errMsg env) :: rest.2)
      else
        let df_dia := normalize_result env.result
        if df_dia.isEmpty then rest else (df_dia :: rest.1, rest.2)

/-- Stable deduplication by `event_key`, first occurrence wins, over a list
of already-seen keys. -/
def dedupAux : List String → List NRow → List NRow
  | _, [] => []
  | seen, r :: rest =>
    if seen.contains r.event_key then dedupAux seen rest
    else r :: dedupAux (r.event_key :: seen) rest

/-- `df_all.drop_duplicates(subset=["event_key"])` (src/flow.py 210-212):
pandas' default `keep="first"` keeps the first occurrence of each
`event_key` in order. -/
def dedupByKey (rows : List NRow) : List NRow := dedupAux [] rows

/-- Result of the "Traer desde API" action (src/flow.py 175-227). -/
inductive FetchResult where
  | warnNoKey
  | invalidRange
  | noData (errores : List (Nat × String))
  | ok (rows : List NRow) (errores : List (Nat × String))
deriving DecidableEq

/-- The range-fetch action (src/flow.py 175-227): reject a blank API key,
reject `fecha_hasta < fecha_desde`, otherwise loop over the
`(endDay - startDay) + 1` days starting at `startDay`; if no day
contributed a non-empty frame report an error (`noData`), else concatenate
the frames in day order, deduplicate by `event_key`, and return the merged
rows together with the per-day errors. -/
def do_fetch (apiKey : String) (api : Nat → DayOutcome) (startDay endDay : Nat) :
    FetchResult :=
  if pyStrip apiKey = "" then .warnNoKey
  else if endDay < startDay then .invalidRange
  else
    let total := endDay - startDay + 1
    let r := fetchLoop api startDay total
    if r.1.isEmpty then .noData r.2
    else .ok (dedupByKey r.1.flatten) r.2

/-- Effect of the fetch action on the in-memory buffer
`st.session_state.df_buf` (src/flow.py 169-170, 214): the buffer is
overwritten only on a successful merge; warnings, an invalid range, and
the no-data error leave it untouched. -/
def do_fetch_buf (apiKey : String) (api : Nat → DayOutcome) (startDay endDay : Nat)
    (buf : List NRow) : List NRow :=
  match do_fetch apiKey api startDay endDay with
  | .ok rows _ => rows
  | _ => buf

/-- Result of processing an uploaded JSON file (src/flow.py 229-238). -/
inductive UploadResult where
  | parseError (msg : String)
  | notSuccess
  | loaded
deriving DecidableEq

/-- The JSON-upload fallback (src/flow.py 229-238): a payload that fails to
parse reports an error; a parsed envelope with `success != 1` reports an
error; otherwise the buffer is replaced by the normalized `result` list,
verbatim (no deduplication). Returns the new buffer and the outcome. -/
def upl_action (parsed : Except String Envelope) (buf : List NRow) :
    List NRow × UploadResult :=
  match parsed with
  | .error e => (buf, .parseError e)
  | .ok env =>
    if env.success ≠ some (.vnum 1) then (buf, .notSuccess)
    else (normalize_result env.result, .loaded)

/-- A row of the destination table
(`RAW_TENNIS_MATCH_KEYS`, src/flow.py 66-80): the normalized fields plus the
stamped `source_date` (a day number here) and `timezone_used`. The
server-assigned `_ingested_at` timestamp is not modelled. -/
structure StoredRow where
  row : NRow
  source_date : Nat
  timezone_used : String
deriving DecidableEq

/-- The partition predicate used by both the delete statement and the
query: `source_date between start and stop and timezone_used = tz`
(src/flow.py 88-90, 329-330). -/
def inPartition (startDay stopDay : Nat) (tz : String) (r : StoredRow) : Bool :=
  decide (startDay ≤ r.source_date) && decide (r.source_date ≤ stopDay)
    && (r.timezone_used == tz)

/-- `delete_partition_range` (src/flow.py 82-91): remove every stored row
whose `(source_date, timezone_used)` falls in the partition. -/
def delete_partition_range (startDay stopDay : Nat) (tz : String)
    (store : List StoredRow) : List StoredRow :=
  store.filter (fun r => !(inPartition startDay stopDay tz r))

/-- The read-only scoped query (src/flow.py 324-333) restricted to its
filtering clause: the rows whose `(source_date, timezone_used)` falls in the
partition. The `ORDER BY` and `LIMIT` clauses only reorder/truncate the
result and are not modelled. -/
def query_partition (startDay stopDay : Nat) (tz : String)
    (store : List StoredRow) : List StoredRow :=
  store.filter (inPartition startDay stopDay tz)

/-- Stamping one buffered row for insertion (src/flow.py 298-307):
`source_date` is the parse of the row's `event_date` when it succeeds,
falling back to the range's start day (`fillna(default_date)`), and
`timezone_used` is the timezone. The `pd.to_datetime(..., errors="coerce")`
parse is the explicit argument `parse`. -/
def stampRow (parse : JVal → Option Nat) (startDay : Nat) (tz : String)
    (r : NRow) : StoredRow :=
  { row := r, source_date := (parse r.event_date).getD startDay, timezone_used := tz }

/-- Outcome of the "Guardar en Snowflake" action (src/flow.py 284-317). -/
inductive SaveStatus where
  | warnNoData
  | invalidRange
  | saved
deriving DecidableEq

/-- The save action (src/flow.py 284-317): with an empty buffer it only
warns (`"No hay datos para guardar."`) and touches nothing; with an invalid
range it only reports an error; otherwise it deletes the partition's rows
and appends the stamped buffer rows (`write_pandas` bulk-append). Returns
the new table content and the outcome. -/
def do_save (parse : JVal → Option Nat) (buf : List NRow)
    (startDay stopDay : Nat) (tz : String) (store : List StoredRow) :
    List StoredRow × SaveStatus :=
  if buf.isEmpty then (store, .warnNoData)
  else if stopDay < startDay then (store, .invalidRange)
  else
    (delete_partition_range startDay stopDay tz store
      ++ buf.map (stampRow parse startDay tz), .saved)

/-- A day the loop records as failed: the call raised, or the envelope's
`success` flag is not 1 (src/flow.py 192-199). -/
def dayFails : DayOutcome → Bool
  | .netError _ => true
  | .ok env => env.success != some (.vnum 1)

/-- A day that contributes records to the accumulator: the call returned an
envelope with `success == 1` whose normalized result is non-empty
(src/flow.py 194-197). -/
def dayContributes : DayOutcome → Bool
  | .netError _ => false
  | .ok env => (env.success == some (.vnum 1)) && !(normalize_result env.result).isEmpty

/-- Whether a `JVal` is a Python string. -/
def isStr : JVal → Bool
  | .vstr _ => true
  | _ => false

/-- An upstream field that is either absent or holds a string value. -/
def srcFieldOk : Option JVal → Bool
  | none => true
  | some v => isStr v

/-- All the pass-through fields of an upstream record are absent or
string-valued (`event_key`/`match_key` excluded: those are always coerced
with `str(...)`). -/
def recOk (it : URecord) : Bool :=
  srcFieldOk it.event_date && srcFieldOk it.event_time
    && srcFieldOk it.event_first_player && srcFieldOk it.event_second_player
    && srcFieldOk it.tournament_name && srcFieldOk it.event_type_type
    && srcFieldOk it.event_status

/-- All the pass-through fields of a normalized row are string-valued. -/
def rowOk (r : NRow) : Bool :=
  isStr r.event_date && isStr r.event_time && isStr r.first_player
    && isStr r.second_player && isStr r.tournament_name
    && isStr r.event_type_type && isStr r.event_status

/-- A successful envelope carrying an empty result list. -/
def emptyOkEnv : Envelope :=
  { success := some (.vnum 1), message := none, result := some [] }

/-- Sample normalized row used by concrete instances. -/
def sampleA : NRow :=
  { event_key := "101", event_date := .vstr "2024-01-05", event_time := .vstr "10:00"
  , first_player := .vstr "Ana", second_player := .vstr "Bea"
  , tournament_name := .vstr "Open", event_type_type := .vstr "Wta"
  , event_status := .vstr "" }

/-- Sample normalized row with a distinct `event_key`. -/
def sampleB : NRow :=
  { event_key := "202", event_date := .vstr "2024-01-05", event_time := .vstr "11:00"
  , first_player := .vstr "Cora", second_player := .vstr "Dana"
  , tournament_name := .vstr "Cup", event_type_type := .vstr "Wta"
  , event_status := .vstr "" }

/-- Sample row sharing `sampleA`'s `event_key` but differing elsewhere. -/
def sampleDup : NRow :=
  { event_key := "101", event_date := .vstr "2024-01-06", event_time := .vstr "12:00"
  , first_player := .vstr "Eva", second_player := .vstr "Fay"
  , tournament_name := .vstr "Other", event_type_type := .vstr "Atp"
  , event_status := .vstr "Finished" }

/-- A stored row sitting inside partition `(5, 5, "America/Monterrey")`. -/
def sampleStored : StoredRow :=
  { row := sampleA, source_date := 5, timezone_used := "America/Monterrey" }

/-- A date parse that always fails (every `source_date` falls back to the
range's start day). -/
def noParse : JVal → Option Nat := fun _ => none

/-- Sample upstream record with all consumed fields present as strings. -/
def sampleURecord : URecord :=
  { event_key := some (.vstr "101"), match_key := some (.vnum 101)
  , event_date := some (.vstr "2024-01-05"), event_time := some (.vstr "10:00")
  , event_first_player := some (.vstr "Ana"), event_second_player := some (.vstr "Bea")
  , tournament_name := some (.vstr "Open"), event_type_type := some (.vstr "Wta")
  , event_status := some (.vstr "") }

/-- Sample upstream record whose present `event_date` is null. -/
def nullDateRec : URecord := { event_date := some JVal.vnull }

/-- A successful envelope with one record for the given key. -/
def envWithKey (k : Int) : Envelope :=
  { success := some (.vnum 1), message := none
  , result := some [{ event_key := some (.vnum k) }] }

/-- Sample upstream where day 1 raises and every other day has one record. -/
def apiOneFail : Nat → DayOutcome := fun d =>
  if d = 1 then .netError "boom" else .ok (envWithKey (Int.ofNat d))

/-- Sample upstream where every day fails with `success != 1`. -/
def apiFail : Nat → DayOutcome := fun _ =>
  .ok { success := some (.vnum 0), message := some (.vstr "down"), result := none }

/-- Sample upstream where day 1 is a successful empty day and the others
have one record each. -/
def apiEmptyDay : Nat → DayOutcome := fun d =>
  if d = 1 then .ok emptyOkEnv else .ok (envWithKey (Int.ofNat d))

/-- An envelope whose result holds two records with the same `event_key`
but different tournaments. -/
def dupEnv : Envelope :=
  { success := some (.vnum 1), message := none
  , result := some
      [ { event_key := some (.vnum 7), tournament_name := some (.vstr "Open") }
      , { event_key := some (.vnum 7), tournament_name := some (.vstr "Cup") } ] }

theorem isStr_getD (o : Option JVal) (h : srcFieldOk o = true) :
    isStr (o.getD (.vstr "")) = true := by
  cases o with
  | none => rfl
  | some v => exact h

theorem rowOk_normalizeRecord (it : URecord) (h : recOk it = true) :
    rowOk (normalizeRecord it) = true := by
  simp only [recOk, Bool.and_eq_true] at h
  obtain ⟨⟨⟨⟨⟨⟨h1, h2⟩, h3⟩, h4⟩, h5⟩, h6⟩, h7⟩ := h
  simp only [rowOk, normalizeRecord, Bool.and_eq_true]
  exact ⟨⟨⟨⟨⟨⟨isStr_getD _ h1, isStr_getD _ h2⟩, isStr_getD _ h3⟩,
    isStr_getD _ h4⟩, isStr_getD _ h5⟩, isStr_getD _ h6⟩, isStr_getD _ h7⟩

theorem filter_not_filter {α : Type} (p : α → Bool) (l : List α) :
    (l.filter fun a => !(p a)).filter p = [] := by
  induction l with
  | nil => rfl
  | cons x xs ih => by_cases h : p x <;> simp [List.filter_cons, h, ih]

/-- C1 counterexample: the claim says `sync` with empty rows clears the
partition (a scoped query afterwards returns zero rows). On the code,
`do_save` with an empty buffer only warns and performs no delete
(src/flow.py 284-286): starting from a store whose partition holds
`sampleStored`, the scoped query afterwards still returns that row. -/
theorem C1_counterexample :
    (do_save noParse [] 5 5 "America/Monterrey" [sampleStored]).2 = SaveStatus.warnNoData ∧
    query_partition 5 5 "America/Monterrey"
      ((do_save noParse [] 5 5 "America/Monterrey" [sampleStored]).1) = [sampleStored] := by
  constructor <;> rfl

/-- C1 (amended): calling the save action with an empty rows sequence does
not execute the delete step at all — it reports a no-data warning and
leaves the stored table (hence every partition) exactly as it was. -/
theorem C1_empty_rows_save_noop (parse : JVal → Option Nat) (startDay stopDay : Nat)
    (tz : String) (store : List StoredRow) :
    do_save parse [] startDay stopDay tz store = (store, SaveStatus.warnNoData) := by
  simp [do_save]

/-- C2: running the save action twice with the identical buffer and
partition key yields the same final partition content as running it once:
the second run's delete removes everything the first run put inside the
partition before reinserting the identical stamped rows. -/
theorem C2_sync_idempotent (parse : JVal → Option Nat) (buf : List NRow)
    (startDay stopDay : Nat) (tz : String) (store : List StoredRow) :
    query_partition startDay stopDay tz
        ((do_save parse buf startDay stopDay tz
          ((do_save parse buf startDay stopDay tz store).1)).1)
      = query_partition startDay stopDay tz
          ((do_save parse buf startDay stopDay tz store).1) := by
  by_cases hb : buf.isEmpty
  · simp [do_save, hb]
  · by_cases hr : stopDay < startDay
    · simp [do_save, hb, hr]
    · simp [do_save, hb, hr, delete_partition_range, query_partition,
        List.filter_append, filter_not_filter]

/-- C3 counterexample: the claim says the output `event_key` is the string
coercion of the record's `event_key` field whenever that field is present.
On the code, `str(it.get("event_key") or it.get("match_key") or "")` uses
Python truthiness: a present-but-empty `event_key` string is falsy, so the
output falls through to `match_key` instead of the coercion `""` of the
`event_key` field. -/
theorem C3_counterexample :
    (normalizeRecord { event_key := some (.vstr ""), match_key := some (.vstr "m417") }).event_key
        = "m417"
      ∧ pyStr (JVal.vstr "") = ""
      ∧ ("m417" : String) ≠ "" := by
  refine ⟨rfl, rfl, by decide⟩

/-- C3 (amended): the Normalizer's output `event_key` is the string
coercion of the record's `event_key` field when that field is present and
truthy (in Python's sense: non-null, non-zero, non-empty); otherwise the
string coercion of `match_key` when that is present and truthy; otherwise
the empty string. -/
theorem C3_event_key_fallback (it : URecord) :
    (normalizeRecord it).event_key =
      if truthy (optVal it.event_key) then pyStr (optVal it.event_key)
      else if truthy (optVal it.match_key) then pyStr (optVal it.match_key)
      else "" := by
  simp only [normalizeRecord, pyOr]
  by_cases h1 : truthy (optVal it.event_key) <;>
    by_cases h2 : truthy (optVal it.match_key) <;>
      simp [h1, h2, pyStr]

/-- C4 counterexample: the claim says every normalized field is a string
and never null. On the code the non-identifier fields are
`it.get(field, "")`: the default applies only when the key is absent, so a
record whose `event_date` key is present with a null value normalizes to a
null `event_date`. -/
theorem C4_counterexample :
    (normalizeRecord nullDateRec).event_date = JVal.vnull ∧
    isStr (normalizeRecord nullDateRec).event_date = false := by
  exact ⟨rfl, rfl⟩

/-- C4 (amended): `event_key` is always a string (the code wraps it in
`str(...)`; in the model its type is `String`), and every other normalized
field defaults to the empty string when the source field is absent and is
the source value verbatim when present — hence every field is a string
whenever each present source value is a string. -/
theorem C4_fields_strings (rl : List URecord) (h : rl.all recOk = true) :
    (normalize_result (some rl)).all rowOk = true := by
  simp only [normalize_result, Option.getD_some, List.all_eq_true] at *
  intro r hr
  rw [List.mem_map] at hr
  obtain ⟨it, hit, rfl⟩ := hr
  exact rowOk_normalizeRecord it (h it hit)

/-- C4 witness: the amended statement applied to a concrete record list
whose present source values are all strings. -/
theorem C4_witness :
    ([sampleURecord].all recOk = true) ∧
    (normalize_result (some [sampleURecord])).all rowOk = true :=
  ⟨by decide, C4_fields_strings [sampleURecord] (by decide)⟩

/-- C5: deduplication by `event_key` is stable and order-preserving with
first occurrence winning: on input `[k1, k2, k1']` where `k1'` shares
`k1`'s `event_key`, the merged result contains exactly one record with
that key, and it is `k1` itself. -/
theorem C5_dedup_first_wins (k1 k2 k1' : NRow) (h : k1'.event_key = k1.event_key) :
    (dedupByKey [k1, k2, k1']).filter (fun r => r.event_key == k1.event_key) = [k1] := by
  by_cases hk : k2.event_key = k1.event_key <;>
    simp [dedupByKey, dedupAux, h, hk, List.filter_cons]

/-- C5 witness: the dedup statement at concrete rows, `sampleDup` sharing
`sampleA`'s key but differing in every other field. -/
theorem C5_witness :
    (sampleDup.event_key = sampleA.event_key) ∧
    (dedupByKey [sampleA, sampleB, sampleDup]).filter
        (fun r => r.event_key == sampleA.event_key) = [sampleA] :=
  ⟨rfl, C5_dedup_first_wins sampleA sampleB sampleDup rfl⟩

theorem fetchLoop_add (api : Nat → DayOutcome) (n : Nat) :
    ∀ (day m : Nat),
      fetchLoop api day (n + m) =
        ((fetchLoop api day n).1 ++ (fetchLoop api (day + n) m).1,
         (fetchLoop api day n).2 ++ (fetchLoop api (day + n) m).2) := by
  induction n with
  | zero => intro day m; simp [fetchLoop]
  | succ k ih =>
    intro day m
    have hn : k + 1 + m = (k + m) + 1 := by omega
    have hd : day + (k + 1) = (day + 1) + k := by omega
    rw [hn, hd]
    show fetchLoop api day ((k + m) + 1) = _
    simp only [fetchLoop]
    rw [ih (day + 1) m]
    cases api day with
    | netError msg => simp
    | ok env =>
      by_cases hs : env.success ≠ some (.vnum 1)
      · simp [hs]
      · by_cases he : (normalize_result env.result).isEmpty <;> simp [hs, he]

theorem fetchLoop_agree (api api' : Nat → DayOutcome) (n : Nat) :
    ∀ day : Nat, (∀ i, i < n → api (day + i) = api' (day + i)) →
      fetchLoop api day n = fetchLoop api' day n := by
  induction n with
  | zero => intro day _; rfl
  | succ k ih =>
    intro day h
    have h0 : api day = api' day := by simpa using h 0 (by omega)
    have hrest : fetchLoop api (day + 1) k = fetchLoop api' (day + 1) k := by
      apply ih
      intro i hi
      have := h (i + 1) (by omega)
      rwa [show day + (i + 1) = day + 1 + i by omega] at this
    simp only [fetchLoop]
    rw [hrest, h0]

theorem fetchLoop_one_net (api : Nat → DayOutcome) (day : Nat) (m : String)
    (h : api day = .netError m) :
    fetchLoop api day 1 = ([], [(day, m)]) := by
  simp [fetchLoop, h]

theorem fetchLoop_one_fail_env (api : Nat → DayOutcome) (day : Nat) (env : Envelope)
    (h : api day = .ok env) (hs : env.success ≠ some (.vnum 1)) :
    fetchLoop api day 1 = ([], [(day, errMsg env)]) := by
  simp [fetchLoop, h, hs]

theorem fetchLoop_one_empty (api : Nat → DayOutcome) (day : Nat) (env : Envelope)
    (h : api day = .ok env) (hs : env.success = some (.vnum 1))
    (he : normalize_result env.result = []) :
    fetchLoop api day 1 = ([], []) := by
  simp [fetchLoop, h, hs, he]

/-- C6: a failing day (raised exception or `success != 1`) inside the range
is recorded in the error list with that exact day, and it neither aborts the
loop nor changes what the other days contribute: the accumulated frames —
hence the deduplicated merged result — equal those of the run in which that
day instead answers with a successful empty envelope. -/
theorem C6_day_failure_recorded_and_isolated (api : Nat → DayOutcome)
    (s d e : Nat) (h1 : s ≤ d) (h2 : d ≤ e) (h3 : dayFails (api d) = true) :
    (∃ m, (d, m) ∈ (fetchLoop api s (e - s + 1)).2) ∧
    (fetchLoop api s (e - s + 1)).1 =
      (fetchLoop (fun x => if x = d then .ok emptyOkEnv else api x) s (e - s + 1)).1 ∧
    dedupByKey (fetchLoop api s (e - s + 1)).1.flatten =
      dedupByKey
        (fetchLoop (fun x => if x = d then .ok emptyOkEnv else api x) s (e - s + 1)).1.flatten := by
  have htot : e - s + 1 = (d - s) + (1 + (e - d)) := by omega
  have hsd : s + (d - s) = d := by omega
  obtain ⟨m0, hm⟩ : ∃ m0, fetchLoop api d 1 = ([], [(d, m0)]) := by
    cases hapi : api d with
    | netError m => exact ⟨m, fetchLoop_one_net api d m hapi⟩
    | ok env =>
      refine ⟨errMsg env, fetchLoop_one_fail_env api d env hapi ?_⟩
      rw [hapi] at h3
      simpa [dayFails] using h3
  have hA : fetchLoop (fun x => if x = d then DayOutcome.ok emptyOkEnv else api x) s (d - s)
      = fetchLoop api s (d - s) := by
    apply fetchLoop_agree
    intro i hi
    have hne : s + i ≠ d := by omega
    simp [hne]
  have hB : fetchLoop (fun x => if x = d then DayOutcome.ok emptyOkEnv else api x)
      (d + 1) (e - d) = fetchLoop api (d + 1) (e - d) := by
    apply fetchLoop_agree
    intro i hi
    have hne : d + 1 + i ≠ d := by omega
    simp [hne]
  have hM : fetchLoop (fun x => if x = d then DayOutcome.ok emptyOkEnv else api x) d 1
      = ([], []) := by
    apply fetchLoop_one_empty _ _ emptyOkEnv
    · simp
    · rfl
    · rfl
  have hfst : (fetchLoop api s (e - s + 1)).1 =
      (fetchLoop (fun x => if x = d then .ok emptyOkEnv else api x) s (e - s + 1)).1 := by
    rw [htot, fetchLoop_add, hsd, fetchLoop_add, hm, fetchLoop_add, hsd, fetchLoop_add,
      hM, hA, hB]
  refine ⟨⟨m0, ?_⟩, hfst, by rw [hfst]⟩
  rw [htot, fetchLoop_add, hsd, fetchLoop_add, hm]
  simp

/-- C6 witness: range `0..2` where day 1 raises and the other days each
return one record. -/
theorem C6_witness :
    ((0:Nat) ≤ 1 ∧ (1:Nat) ≤ 2 ∧ dayFails (apiOneFail 1) = true) ∧
    ((∃ m, (1, m) ∈ (fetchLoop apiOneFail 0 (2 - 0 + 1)).2) ∧
     (fetchLoop apiOneFail 0 (2 - 0 + 1)).1 =
       (fetchLoop (fun x => if x = 1 then .ok emptyOkEnv else apiOneFail x) 0 (2 - 0 + 1)).1 ∧
     dedupByKey (fetchLoop apiOneFail 0 (2 - 0 + 1)).1.flatten =
       dedupByKey
         (fetchLoop (fun x => if x = 1 then .ok emptyOkEnv else apiOneFail x) 0
           (2 - 0 + 1)).1.flatten) :=
  ⟨⟨by decide, by decide, by decide⟩,
   C6_day_failure_recorded_and_isolated apiOneFail 0 1 2 (by decide) (by decide) (by decide)⟩

/-- C7: with `endDay < startDay` the fetch action stops at caller-level
validation: it reports the blank-key warning or the invalid-range error,
and the upstream API is never consulted — the result is identical for any
two API behaviours. -/
theorem C7_invalid_range_no_call (apiKey : String) (api api' : Nat → DayOutcome)
    (s e : Nat) (h : e < s) :
    (do_fetch apiKey api s e = .warnNoKey ∨ do_fetch apiKey api s e = .invalidRange) ∧
    do_fetch apiKey api s e = do_fetch apiKey api' s e := by
  by_cases hk : pyStrip apiKey = "" <;> simp [do_fetch, hk, h]

/-- C7 witness: `endDay = 1 < 3 = startDay` with two APIs that differ
everywhere. -/
theorem C7_witness :
    ((1:Nat) < 3) ∧
    ((do_fetch "k" apiOneFail 3 1 = .warnNoKey ∨ do_fetch "k" apiOneFail 3 1 = .invalidRange) ∧
     do_fetch "k" apiOneFail 3 1 = do_fetch "k" apiFail 3 1) :=
  ⟨by decide, C7_invalid_range_no_call "k" apiOneFail apiFail 3 1 (by decide)⟩

theorem fetchLoop_no_contrib (api : Nat → DayOutcome) (n : Nat) :
    ∀ day : Nat, (∀ i, i < n → dayContributes (api (day + i)) = false) →
      (fetchLoop api day n).1 = [] := by
  induction n with
  | zero => intro day _; rfl
  | succ k ih =>
    intro day h
    have h0 : dayContributes (api day) = false := by simpa using h 0 (by omega)
    have hrest : (fetchLoop api (day + 1) k).1 = [] := by
      apply ih
      intro i hi
      have := h (i + 1) (by omega)
      rwa [show day + (i + 1) = day + 1 + i by omega] at this
    simp only [fetchLoop]
    cases hapi : api day with
    | netError m => simpa using hrest
    | ok env =>
      rw [hapi] at h0
      by_cases hs : env.success = some (.vnum 1)
      · have hemp : (normalize_result env.result).isEmpty = true := by
          simp [dayContributes, hs] at h0
          simpa using h0
      
        simp [hs, hemp, hrest]
      · simp [hs, hrest]

/-- C8: when no day of the range contributes any record (every day fails or
returns an empty result list), the fetch reports the no-data error and the
in-memory buffer `df_buf` keeps its previous content instead of being
overwritten with an empty table. -/
theorem C8_no_records_buffer_unchanged (apiKey : String) (api : Nat → DayOutcome)
    (s e : Nat) (buf : List NRow) (hk : pyStrip apiKey ≠ "") (hse : s ≤ e)
    (hall : ∀ d, s ≤ d → d ≤ e → dayContributes (api d) = false) :
    do_fetch_buf apiKey api s e buf = buf ∧
    ∃ errs, do_fetch apiKey api s e = .noData errs := by
  have hempty : (fetchLoop api s (e - s + 1)).1 = [] := by
    apply fetchLoop_no_contrib
    intro i hi
    exact hall (s + i) (by omega) (by omega)
  have hlt : ¬ e < s := by omega
  have hdf : do_fetch apiKey api s e = .noData (fetchLoop api s (e - s + 1)).2 := by
    simp [do_fetch, hk, hlt, hempty]
  exact ⟨by simp [do_fetch_buf, hdf], ⟨_, hdf⟩⟩

/-- C8 witness: a one-day range whose single day answers `success = 0`;
the pre-existing buffer `[sampleA]` survives. -/
theorem C8_witness :
    (pyStrip "k" ≠ "" ∧ (0:Nat) ≤ 0) ∧
    (do_fetch_buf "k" apiFail 0 0 [sampleA] = [sampleA] ∧
     ∃ errs, do_fetch "k" apiFail 0 0 = .noData errs) :=
  ⟨⟨by decide, Nat.le_refl 0⟩,
   C8_no_records_buffer_unchanged "k" apiFail 0 0 [sampleA] (by decide) (Nat.le_refl 0)
     (fun d h1 h2 => by
        have hd : d = 0 := Nat.le_antisymm h2 h1
        subst hd
        decide)⟩

/-- C9: a day inside the range whose fetch succeeds (`success == 1`) but
whose normalized result list is empty contributes nothing: the loop's
output over the whole range is exactly the output over the days before it
concatenated with the output over the days after it — no record is added
to the accumulator and no entry is added to the error list. -/
theorem C9_empty_success_day_no_effect (api : Nat → DayOutcome) (s d e : Nat)
    (env : Envelope) (h1 : s ≤ d) (h2 : d ≤ e) (h3 : api d = .ok env)
    (h4 : env.success = some (.vnum 1)) (h5 : normalize_result env.result = []) :
    fetchLoop api s (e - s + 1) =
      ((fetchLoop api s (d - s)).1 ++ (fetchLoop api (d + 1) (e - d)).1,
       (fetchLoop api s (d - s)).2 ++ (fetchLoop api (d + 1) (e - d)).2) := by
  have htot : e - s + 1 = (d - s) + (1 + (e - d)) := by omega
  have hsd : s + (d - s) = d := by omega
  rw [htot, fetchLoop_add, hsd, fetchLoop_add,
    fetchLoop_one_empty api d env h3 h4 h5]
  simp

/-- C9 witness: range `0..2` where day 1 succeeds with an empty result list
and the other days each return one record. -/
theorem C9_witness :
    ((0:Nat) ≤ 1 ∧ (1:Nat) ≤ 2 ∧ apiEmptyDay 1 = .ok emptyOkEnv ∧
     emptyOkEnv.success = some (.vnum 1) ∧ normalize_result emptyOkEnv.result = []) ∧
    fetchLoop apiEmptyDay 0 (2 - 0 + 1) =
      ((fetchLoop apiEmptyDay 0 (1 - 0)).1 ++ (fetchLoop apiEmptyDay (1 + 1) (2 - 1)).1,
       (fetchLoop apiEmptyDay 0 (1 - 0)).2 ++ (fetchLoop apiEmptyDay (1 + 1) (2 - 1)).2) :=
  ⟨⟨by decide, by decide, rfl, rfl, rfl⟩,
   C9_empty_success_day_no_effect apiEmptyDay 0 1 2 emptyOkEnv
     (by decide) (by decide) rfl rfl rfl⟩

/-- C10: the upload path stores the normalized records verbatim — the new
buffer is exactly `normalize_result` of the payload's `result` list, with
no deduplication by `event_key`. Concretely, `dupEnv` carries two records
sharing `event_key` 7: the buffer keeps both, while the range-fetch path's
`dedupByKey` would collapse them to one. -/
theorem C10_upload_verbatim (env : Envelope) (buf buf2 : List NRow)
    (h : env.success = some (.vnum 1)) :
    (upl_action (.ok env) buf).1 = normalize_result env.result ∧
    ((upl_action (.ok dupEnv) buf2).1.map (fun r => r.event_key) = ["7", "7"] ∧
     (dedupByKey (upl_action (.ok dupEnv) buf2).1).map (fun r => r.event_key) = ["7"]) := by
  refine ⟨by simp [upl_action, h], rfl, rfl⟩

/-- C10 witness: the verbatim-store statement applied to the concrete
duplicate-key payload itself. -/
theorem C10_witness :
    dupEnv.success = some (.vnum 1) ∧
    (upl_action (.ok dupEnv) []).1 = normalize_result dupEnv.result :=
  ⟨rfl, (C10_upload_verbatim dupEnv [] [] rfl).1⟩
